import Mathlib

/-!
Verification of the Page-Picks line-hit analytics engine.

The repository has two parallel implementations of the analytics:
* `services/analytics_service.py` — an ORM-backed service (`AnalyticsService`)
  working over the `models.py` schema (integer player ids, `StatType` enum);
* `working_api.py` — raw-SQL endpoints over the sqlite schema
  (string player ids, stat selectors as raw column-name strings).

Both are embedded below.  Numeric values are modelled as exact rationals ℚ,
dates as naturals ordered chronologically (ISO date strings compare
lexicographically, which is the same order).  Python `round(x, 2)` is
rounding half to even, SQLite `ROUND` is half away from zero;
both are modelled exactly.  SQL `ORDER BY` and Python `list.sort` (a stable
sort) are modelled with `List.insertionSort`, which is stable.
-/

set_option maxRecDepth 8000

namespace PagePicks

instance {ε α : Type} [DecidableEq ε] [DecidableEq α] : DecidableEq (Except ε α) :=
  fun x y =>
    match x, y with
    | .error e1, .error e2 =>
        if h : e1 = e2 then .isTrue (by rw [h]) else .isFalse (by simp [h])
    | .error _, .ok _ => .isFalse (by simp)
    | .ok _, .error _ => .isFalse (by simp)
    | .ok a1, .ok a2 =>
        if h : a1 = a2 then .isTrue (by rw [h]) else .isFalse (by simp [h])

/-- Rounding half to even, as Python `round` does on the scaled value. -/
def roundHalfEven (x : ℚ) : ℤ :=
  let f : ℤ := ⌊x⌋
  if x - f < 1/2 then f
  else if 1/2 < x - f then f + 1
  else if f % 2 = 0 then f else f + 1

/-- Python `round(x, 2)`. -/
def pyRound2 (x : ℚ) : ℚ := (roundHalfEven (x * 100) : ℚ) / 100

/-- SQLite `ROUND(x, digits)`: half away from zero. -/
def sqlRound (digits : ℕ) (x : ℚ) : ℚ :=
  let m : ℚ := (10 : ℚ) ^ digits
  if 0 ≤ x then ((⌊x * m + 1/2⌋ : ℤ) : ℚ) / m
  else -(((⌊-(x * m) + 1/2⌋ : ℤ) : ℚ) / m)

/-- `statistics.mean` on a nonempty list (callers guard emptiness). -/
def meanQ (l : List ℚ) : ℚ := l.sum / l.length

/-- `statistics.median`: sort, take the middle element, or the mean of the
two middle elements when the length is even. -/
def medianQ (l : List ℚ) : ℚ :=
  let s := l.insertionSort (· ≤ ·)
  let n := s.length
  if n % 2 = 1 then s.getD (n / 2) 0
  else (s.getD (n / 2 - 1) 0 + s.getD (n / 2) 0) / 2

/-! ### The `models.py` / `AnalyticsService` data model -/

/-- `models.StatType`. -/
inductive StatType
  | PASSING_YARDS
  | RUSHING_YARDS
  | RECEIVING_YARDS
  | RECEPTIONS
  | TOUCHDOWNS
  | INTERCEPTIONS
  | FUMBLES
  deriving DecidableEq

/-- The `.value` string of each `StatType` member. -/
def StatType.value : StatType → String
  | .PASSING_YARDS => "passing_yards"
  | .RUSHING_YARDS => "rushing_yards"
  | .RECEIVING_YARDS => "receiving_yards"
  | .RECEPTIONS => "receptions"
  | .TOUCHDOWNS => "touchdowns"
  | .INTERCEPTIONS => "interceptions"
  | .FUMBLES => "fumbles"

/-- Python `StatType(stat_type)`: look a member up by its value string;
raises `ValueError` (here: `none`) when the string is unrecognized. -/
def parseStatType (s : String) : Option StatType :=
  if s = "passing_yards" then some .PASSING_YARDS
  else if s = "rushing_yards" then some .RUSHING_YARDS
  else if s = "receiving_yards" then some .RECEIVING_YARDS
  else if s = "receptions" then some .RECEPTIONS
  else if s = "touchdowns" then some .TOUCHDOWNS
  else if s = "interceptions" then some .INTERCEPTIONS
  else if s = "fumbles" then some .FUMBLES
  else none

/-- A row of the `players` table (`models.Player`); the `position` enum is
kept as its value string. -/
structure SPlayer where
  id : ℕ
  name : String
  position : String
  team : String
  deriving DecidableEq

/-- A row of the `games` table (`models.Game`).  `game_date` is a natural
number ordered chronologically. -/
structure SGame where
  id : ℕ
  season : ℤ
  week : ℕ
  home_team : String
  away_team : String
  game_date : ℕ
  deriving DecidableEq

/-- A row of the `player_stats` table (`models.PlayerStats`).  Columns read
through `_extract_stat_value` are nullable (`Option`); the three touchdown
columns are summed unconditionally by the source, so they are kept total
(their schema default is 0). -/
structure SPlayerStats where
  player_id : ℕ
  game_id : ℕ
  passing_yards : Option ℚ
  rushing_yards : Option ℚ
  receiving_yards : Option ℚ
  receptions : Option ℚ
  passing_touchdowns : ℚ
  rushing_touchdowns : ℚ
  receiving_touchdowns : ℚ
  interceptions : Option ℚ
  fumbles : Option ℚ
  deriving DecidableEq

/-- The database visible to `AnalyticsService`. -/
structure ServiceDb where
  players : List SPlayer
  games : List SGame
  player_stats : List SPlayerStats
  deriving DecidableEq

/-- `AnalyticsService._extract_stat_value`. -/
def extract_stat_value (stat : SPlayerStats) : StatType → Option ℚ
  | .PASSING_YARDS => stat.passing_yards
  | .RUSHING_YARDS => stat.rushing_yards
  | .RECEIVING_YARDS => stat.receiving_yards
  | .RECEPTIONS => stat.receptions
  | .TOUCHDOWNS =>
      some (stat.passing_touchdowns + stat.rushing_touchdowns + stat.receiving_touchdowns)
  | .INTERCEPTIONS => stat.interceptions
  | .FUMBLES => stat.fumbles

/-- `AnalyticsService._get_recent_games`: the most recent `games_back` games
of the whole league, ordered by `game_date` descending. -/
def get_recent_games (db : ServiceDb) (games_back : ℕ) : List SGame :=
  (db.games.insertionSort (fun g1 g2 => g2.game_date ≤ g1.game_date)).take games_back

/-- `AnalyticsService._get_recent_player_stats`: the stats of the player in
those league-wide recent games, ordered by `game_id` descending, with the
selected value extracted and nulls dropped. -/
def get_recent_player_stats (db : ServiceDb) (player_id : ℕ) (stat_type : StatType)
    (games_back : ℕ) : List ℚ :=
  let game_ids := (get_recent_games db games_back).map (·.id)
  let stats := (db.player_stats.filter
      (fun s => decide (s.player_id = player_id) && decide (s.game_id ∈ game_ids))
    ).insertionSort (fun s1 s2 => s2.game_id ≤ s1.game_id)
  stats.filterMap (fun s => extract_stat_value s stat_type)

/-- `AnalyticsService._get_opponent`. -/
def get_opponent (game : SGame) (player_team : String) : String :=
  if game.home_team = player_team then game.away_team else game.home_team

/-- One entry of the game-by-game breakdown. -/
structure GameBreakdownRow where
  game_id : ℕ
  week : ℕ
  season : ℤ
  opponent : String
  stat_value : Option ℚ
  game_date : ℕ
  deriving DecidableEq, Inhabited

/-- `AnalyticsService._get_games_breakdown`: stats joined with games, ordered
by `game_date` descending (null stat values are kept here). -/
def get_games_breakdown (db : ServiceDb) (player_id : ℕ) (stat_type : StatType)
    (games_back : ℕ) : List GameBreakdownRow :=
  let game_ids := (get_recent_games db games_back).map (·.id)
  let joined := db.player_stats.filterMap (fun s =>
    if s.player_id = player_id ∧ s.game_id ∈ game_ids then
      (db.games.find? (fun g => decide (g.id = s.game_id))).map (fun g => (s, g))
    else none)
  let sorted := joined.insertionSort (fun a b => b.2.game_date ≤ a.2.game_date)
  sorted.map (fun sg =>
    let player_team := ((db.players.find? (fun p => decide (p.id = sg.1.player_id))).map
      (·.team)).getD ""
    { game_id := sg.2.id, week := sg.2.week, season := sg.2.season,
      opponent := get_opponent sg.2 player_team,
      stat_value := extract_stat_value sg.1 stat_type,
      game_date := sg.2.game_date })

/-- The result record of `get_player_line_analysis`. -/
structure LineAnalysis where
  player_id : ℕ
  stat_type : String
  line_value : ℚ
  games_analyzed : ℕ
  hit_rate : ℚ
  total_hits : ℕ
  average_value : ℚ
  median_value : ℚ
  games : List GameBreakdownRow
  deriving DecidableEq, Inhabited

/-- `AnalyticsService.get_player_line_analysis`. -/
def get_player_line_analysis (db : ServiceDb) (player_id : ℕ) (stat_type : StatType)
    (line_value : ℚ) (games_back : ℕ) : LineAnalysis :=
  let recent_stats := get_recent_player_stats db player_id stat_type games_back
  if recent_stats.isEmpty then
    { player_id := player_id, stat_type := stat_type.value, line_value := line_value,
      games_analyzed := 0, hit_rate := 0, total_hits := 0,
      average_value := 0, median_value := 0, games := [] }
  else
    let hits := recent_stats.countP (fun v => decide (line_value ≤ v))
    let hit_rate : ℚ := (hits : ℚ) / (recent_stats.length : ℚ)
    -- `values = [v for v in recent_stats if v is not None]`: extraction above
    -- already dropped nulls, so this is `recent_stats` itself.
    let values := recent_stats
    let avg_value := meanQ values
    let median_value := medianQ values
    let games_breakdown := get_games_breakdown db player_id stat_type games_back
    { player_id := player_id, stat_type := stat_type.value, line_value := line_value,
      games_analyzed := recent_stats.length,
      hit_rate := pyRound2 (hit_rate * 100),
      total_hits := hits,
      average_value := pyRound2 avg_value,
      median_value := pyRound2 median_value,
      games := games_breakdown }

/-- The result record of `get_multiple_line_analysis`; the Python dict keyed
by the strings `line_{lv}` is kept as an association list keyed by the line
value itself. -/
structure MultipleLineAnalysis where
  player_id : ℕ
  stat_type : String
  games_analyzed : ℕ
  line_analyses : List (ℚ × LineAnalysis)
  deriving DecidableEq, Inhabited

/-- `AnalyticsService.get_multiple_line_analysis`.  The summary reads
`analysis["games_analyzed"]` where `analysis` is the loop variable left over
from the last iteration; with an empty `line_values` the loop never runs and
the read raises `UnboundLocalError`, modelled as `none`. -/
def get_multiple_line_analysis (db : ServiceDb) (player_id : ℕ) (stat_type : StatType)
    (line_values : List ℚ) (games_back : ℕ) : Option MultipleLineAnalysis :=
  match line_values with
  | [] => none
  | hd :: tl =>
    let results := (hd :: tl).map
      (fun lv => (lv, get_player_line_analysis db player_id stat_type lv games_back))
    let last_analysis :=
      get_player_line_analysis db player_id stat_type (tl.getLastD hd) games_back
    some { player_id := player_id, stat_type := stat_type.value,
           games_analyzed := last_analysis.games_analyzed, line_analyses := results }

/-- One per-player entry of the service-level position analysis. -/
structure PositionPlayerRow where
  player_id : ℕ
  player_name : String
  team : String
  hit_rate : ℚ
  games_analyzed : ℕ
  deriving DecidableEq, Inhabited

/-- The result record of the service-level `get_position_analysis`. -/
structure PositionAnalysis where
  position : String
  stat_type : String
  line_value : ℚ
  total_players : ℕ
  players : List PositionPlayerRow
  deriving DecidableEq

/-- `AnalyticsService.get_position_analysis`.  The player rows are produced
in table order, and Python `list.sort(key=hit_rate, reverse=True)` is a
stable sort on the single key `hit_rate` — there is no secondary key. -/
def get_position_analysis (db : ServiceDb) (position : String) (stat_type : StatType)
    (line_value : ℚ) (games_back : ℕ) : PositionAnalysis :=
  let players := db.players.filter (fun p => decide (p.position = position))
  let analyses := players.filterMap (fun p =>
    let analysis := get_player_line_analysis db p.id stat_type line_value games_back
    if 0 < analysis.games_analyzed then
      some { player_id := p.id, player_name := p.name, team := p.team,
             hit_rate := analysis.hit_rate, games_analyzed := analysis.games_analyzed }
    else none)
  let sorted := analyses.insertionSort (fun a b => b.hit_rate ≤ a.hit_rate)
  { position := position, stat_type := stat_type.value, line_value := line_value,
    total_players := sorted.length, players := sorted }

/-- Errors surfaced by the web layer: `HTTPException(status, detail)` raised
by the handlers, or an `sqlite3.OperationalError` escaping from
`cursor.execute`. -/
inductive ApiError
  | httpException (status : ℕ) (detail : String)
  | operationalError (message : String)
  deriving DecidableEq

/-- The `/players/{player_id}/line-analysis` route of `routers/players.py`:
`StatType(stat_type)` raises `ValueError` on an unrecognized string, which
the handler converts to an HTTP 400. -/
def router_get_player_line_analysis (db : ServiceDb) (player_id : ℕ) (stat_type : String)
    (line_value : ℚ) (games_back : ℕ) : Except ApiError LineAnalysis :=
  match parseStatType stat_type with
  | none => .error (.httpException 400 ("Invalid stat type: " ++ stat_type))
  | some st => .ok (get_player_line_analysis db player_id st line_value games_back)

/-! ### The `working_api.py` sqlite data model -/

/-- A row of the sqlite `players` table. -/
structure WPlayer where
  player_id : String
  full_name : String
  position : String
  team_id : Option String
  deriving DecidableEq, Inhabited

/-- A row of the sqlite `teams` table. -/
structure WTeam where
  team_id : String
  abbr : String
  deriving DecidableEq

/-- A row of the sqlite `player_game_stats` table (columns as inserted by
`update_2025_and_injuries.py`). -/
structure WPgs where
  player_id : String
  game_id : String
  passing_yards : Option ℚ
  rushing_yards : Option ℚ
  receiving_yards : Option ℚ
  receptions : Option ℚ
  passing_tds : Option ℚ
  rushing_tds : Option ℚ
  receiving_tds : Option ℚ
  deriving DecidableEq

/-- A row of the sqlite `games` table; `game_date` is a natural ordered
chronologically (ISO date strings sort the same way). -/
structure WGame where
  game_id : String
  season : ℤ
  week : ℕ
  game_date : ℕ
  deriving DecidableEq

/-- A row of the sqlite `excluded_players` table (`player_id` nullable). -/
structure WExcludedRow where
  player_id : Option String
  active : Bool
  deriving DecidableEq

/-- The sqlite database behind `working_api.py`.  `team_changes` and
`injured_players` are kept as their nullable `player_id` column, which is
all the queries read. -/
structure WorkingDb where
  players : List WPlayer
  teams : List WTeam
  player_game_stats : List WPgs
  games : List WGame
  team_changes : List (Option String)
  injured_players : List (Option String)
  excluded_players : List WExcludedRow
  deriving DecidableEq

/-- `working_api.get_stat_column` (the literal SQL fragment). -/
def get_stat_column (stat_type : String) : String :=
  if stat_type = "total_yards" then
    "COALESCE(pgs.receiving_yards, 0) + COALESCE(pgs.rushing_yards, 0)"
  else "pgs." ++ stat_type

/-- `working_api.get_stat_condition` (the literal SQL fragment). -/
def get_stat_condition (stat_type : String) : String :=
  if stat_type = "total_yards" then
    "(pgs.receiving_yards IS NOT NULL OR pgs.rushing_yards IS NOT NULL)"
  else "pgs." ++ stat_type ++ " IS NOT NULL"

/-- Semantics of the column reference `pgs.{name}`: `none` when the table
has no such column (sqlite raises `OperationalError`), otherwise the SQL
value of the column (`none` = SQL NULL). -/
def pgsColumn (name : String) (r : WPgs) : Option (Option ℚ) :=
  if name = "passing_yards" then some r.passing_yards
  else if name = "rushing_yards" then some r.rushing_yards
  else if name = "receiving_yards" then some r.receiving_yards
  else if name = "receptions" then some r.receptions
  else if name = "passing_tds" then some r.passing_tds
  else if name = "rushing_tds" then some r.rushing_tds
  else if name = "receiving_tds" then some r.receiving_tds
  else none

/-- Semantics of the `get_stat_column` expression on one row. -/
def evalStatColumn (stat_type : String) (r : WPgs) : Option (Option ℚ) :=
  if stat_type = "total_yards" then
    some (some (r.receiving_yards.getD 0 + r.rushing_yards.getD 0))
  else pgsColumn stat_type r

/-- Semantics of the `get_stat_condition` expression on one row. -/
def evalStatCondition (stat_type : String) (r : WPgs) : Option Bool :=
  if stat_type = "total_yards" then
    some (r.receiving_yards.isSome || r.rushing_yards.isSome)
  else (pgsColumn stat_type r).map Option.isSome

/-- Column names of `player_game_stats`. -/
def pgsColumnKnown (name : String) : Bool :=
  name = "passing_yards" || name = "rushing_yards" || name = "receiving_yards" ||
  name = "receptions" || name = "passing_tds" || name = "rushing_tds" ||
  name = "receiving_tds"

/-- Stat selectors for which `get_stat_column` produces a valid expression:
the derived `total_yards` or an actual column. -/
def statTypeKnown (stat_type : String) : Bool :=
  stat_type = "total_yards" || pgsColumnKnown stat_type

/-- `LEFT JOIN teams t ON p.team_id = t.team_id`, reading `t.abbr`. -/
def team_abbr (db : WorkingDb) (p : WPlayer) : Option String :=
  p.team_id.bind (fun tid =>
    (db.teams.find? (fun t => decide (t.team_id = tid))).map (·.abbr))

/-- The exclusion subquery shared by the aggregate endpoints:
`team_changes` and `injured_players` ids plus ids of active
`excluded_players`, each with `player_id IS NOT NULL`. -/
def exclusion_ids (db : WorkingDb) : List String :=
  db.team_changes.filterMap id ++ db.injured_players.filterMap id ++
    db.excluded_players.filterMap (fun r => if r.active then r.player_id else none)

/-- The joined qualifying rows of one player for one stat selector:
`player_game_stats` joined with `games`, restricted to seasons 2024/2025 and
to rows satisfying the stat condition, carrying the evaluated stat value.
(Callers guard selector validity; an unknown column yields no value here.) -/
def wQualRows (db : WorkingDb) (pid : String) (stat_type : String) : List (ℚ × WGame) :=
  db.player_game_stats.filterMap (fun r =>
    if r.player_id = pid ∧ (evalStatCondition stat_type r).getD false then
      (db.games.find? (fun g => decide (g.game_id = r.game_id))).bind (fun g =>
        if g.season = 2024 ∨ g.season = 2025 then
          (evalStatColumn stat_type r).bind (fun v => v.map (fun q => (q, g)))
        else none)
    else none)

/-- The qualifying stat values of one player (one per group row). -/
def wQualVals (db : WorkingDb) (pid : String) (stat_type : String) : List ℚ :=
  (wQualRows db pid stat_type).map (·.1)

/-- One game entry of the `/api/players/{id}/analysis` response. -/
structure WGameEntry where
  week : ℕ
  season : ℤ
  game_date : ℕ
  stat_value : ℚ
  hit : Bool
  game_number : ℕ
  deriving DecidableEq, Inhabited

/-- The `season_2025` sub-record of the analysis response. -/
structure WSeasonSummary where
  games_analyzed : ℕ
  hits : ℕ
  hit_rate : ℚ
  average_value : ℚ
  deriving DecidableEq, Inhabited

/-- The `/api/players/{id}/analysis` response record. -/
structure WPlayerAnalysis where
  player_id : String
  player_name : String
  stat_type : String
  line_value : ℚ
  games_analyzed : ℕ
  hits : ℕ
  hit_rate : ℚ
  average_value : ℚ
  games : List WGameEntry
  season_2025 : WSeasonSummary
  deriving DecidableEq, Inhabited

/-- `working_api.get_player_analysis` (the `/api/players/{id}/analysis`
endpoint): the window query numbers the qualifying rows by `game_date`
descending (`ROW_NUMBER`), keeps `rn <= games_back`, and the handler raises
HTTP 404 when either the player or the result set is missing.  The stat
selector is interpolated into the SQL unchecked, so an unknown column makes
`cursor.execute` raise `OperationalError`. -/
def w_get_player_analysis (db : WorkingDb) (player_id : String) (stat_type : String)
    (line_value : ℚ) (games_back : ℕ) : Except ApiError WPlayerAnalysis :=
  match db.players.find? (fun p => decide (p.player_id = player_id)) with
  | none => .error (.httpException 404 "Player not found")
  | some p =>
    if statTypeKnown stat_type then
      let sorted := (wQualRows db player_id stat_type).insertionSort
        (fun a b => b.2.game_date ≤ a.2.game_date)
      let window := sorted.take games_back
      let rows := window.enum.map (fun iv =>
        ({ week := iv.2.2.week, season := iv.2.2.season, game_date := iv.2.2.game_date,
           stat_value := iv.2.1, hit := decide (line_value ≤ iv.2.1),
           game_number := iv.1 + 1 } : WGameEntry))
      if rows.isEmpty then
        .error (.httpException 404 "No stats found for this player/stat combination")
      else
        let games_analyzed := rows.length
        let hits := rows.countP (·.hit)
        let hit_rate : ℚ :=
          if 0 < games_analyzed then ((hits : ℚ) / (games_analyzed : ℚ)) * 100 else 0
        let average_value : ℚ :=
          if 0 < games_analyzed then
            (rows.map (·.stat_value)).sum / (games_analyzed : ℚ)
          else 0
        let games_2025 := rows.filter (fun r => decide (r.season = 2025))
        let games_2025_count := games_2025.length
        let hits_2025 := games_2025.countP (·.hit)
        let hit_rate_2025 : ℚ :=
          if 0 < games_2025_count then ((hits_2025 : ℚ) / (games_2025_count : ℚ)) * 100
          else 0
        let average_value_2025 : ℚ :=
          if 0 < games_2025_count then
            (games_2025.map (·.stat_value)).sum / (games_2025_count : ℚ)
          else 0
        .ok { player_id := player_id, player_name := p.full_name,
              stat_type := stat_type, line_value := line_value,
              games_analyzed := games_analyzed, hits := hits,
              hit_rate := pyRound2 hit_rate,
              average_value := pyRound2 average_value,
              games := rows,
              season_2025 := { games_analyzed := games_2025_count, hits := hits_2025,
                               hit_rate := pyRound2 hit_rate_2025,
                               average_value := pyRound2 average_value_2025 } }
    else .error (.operationalError ("no such column: " ++ get_stat_column stat_type))

/-- One row of the `/api/analytics/trending` response. -/
structure TrendRow where
  player_id : String
  player_name : String
  position : String
  team : Option String
  games_analyzed : ℕ
  hits : ℕ
  hit_rate : ℚ
  average_value : ℚ
  deriving DecidableEq, Inhabited

/-- The order `ORDER BY hit_rate DESC, games_analyzed DESC` on trend rows. -/
def trendOrder (a b : TrendRow) : Prop :=
  b.hit_rate < a.hit_rate ∨ (a.hit_rate = b.hit_rate ∧ b.games_analyzed ≤ a.games_analyzed)

instance : DecidableRel trendOrder := fun a b => by
  unfold trendOrder
  exact inferInstance

instance : IsTotal TrendRow trendOrder where
  total a b := by
    unfold trendOrder
    rcases lt_trichotomy a.hit_rate b.hit_rate with h | h | h
    · exact Or.inr (Or.inl h)
    · rcases Nat.le_total b.games_analyzed a.games_analyzed with hg | hg
      · exact Or.inl (Or.inr ⟨h, hg⟩)
      · exact Or.inr (Or.inr ⟨h.symm, hg⟩)
    · exact Or.inl (Or.inl h)

instance : IsTrans TrendRow trendOrder where
  trans a b c hab hbc := by
    unfold trendOrder at *
    rcases hab with h1 | ⟨h1, h1g⟩ <;> rcases hbc with h2 | ⟨h2, h2g⟩
    · exact Or.inl (h2.trans h1)
    · exact Or.inl (h2 ▸ h1)
    · exact Or.inl (h1 ▸ h2)
    · exact Or.inr ⟨h1.trans h2, h2g.trans h1g⟩

/-- The per-player group of the trending query: `none` when the player is
excluded or the `HAVING COUNT(*) >= min_games` filter rejects the group
(an empty group never exists in SQL). -/
def trending_row (db : WorkingDb) (stat_type : String) (line_value : ℚ) (min_games : ℕ)
    (p : WPlayer) : Option TrendRow :=
  if p.player_id ∈ exclusion_ids db then none
  else
    let vals := wQualVals db p.player_id stat_type
    if vals.isEmpty || decide (vals.length < min_games) then none
    else
      let hits := vals.countP (fun v => decide (line_value ≤ v))
      some { player_id := p.player_id, player_name := p.full_name, position := p.position,
             team := team_abbr db p, games_analyzed := vals.length, hits := hits,
             hit_rate := sqlRound 2 (100 * (hits : ℚ) / (vals.length : ℚ)),
             average_value := sqlRound 1 (meanQ vals) }

/-- `working_api.get_trending_players` (the `/api/analytics/trending`
endpoint): grouped per player, excluded players filtered in `WHERE`,
`ORDER BY hit_rate DESC, games_analyzed DESC`, then `LIMIT`. -/
def w_get_trending_players (db : WorkingDb) (stat_type : String) (line_value : ℚ)
    (min_games : ℕ) (limit : ℕ) : Except ApiError (List TrendRow) :=
  if statTypeKnown stat_type then
    .ok (((db.players.filterMap (trending_row db stat_type line_value min_games)
      ).insertionSort trendOrder).take limit)
  else .error (.operationalError ("no such column: " ++ get_stat_column stat_type))

/-- One row of the `/api/analytics/position/{position}` response. -/
structure WPosRow where
  player_id : String
  player_name : String
  team : Option String
  games_analyzed : ℕ
  hits : ℕ
  hit_rate : ℚ
  average_value : ℚ
  deriving DecidableEq, Inhabited

/-- The order `ORDER BY hit_rate DESC, games_analyzed DESC` on position rows. -/
def posOrder (a b : WPosRow) : Prop :=
  b.hit_rate < a.hit_rate ∨ (a.hit_rate = b.hit_rate ∧ b.games_analyzed ≤ a.games_analyzed)

instance : DecidableRel posOrder := fun a b => by
  unfold posOrder
  exact inferInstance

/-- The per-player group of the working-api position query. -/
def position_row (db : WorkingDb) (position : String) (stat_type : String)
    (line_value : ℚ) (min_games : ℕ) (p : WPlayer) : Option WPosRow :=
  if decide (p.position = position) && !(decide (p.player_id ∈ exclusion_ids db)) then
    let vals := wQualVals db p.player_id stat_type
    if vals.isEmpty || decide (vals.length < min_games) then none
    else
      let hits := vals.countP (fun v => decide (line_value ≤ v))
      some { player_id := p.player_id, player_name := p.full_name,
             team := team_abbr db p, games_analyzed := vals.length, hits := hits,
             hit_rate := sqlRound 2 (100 * (hits : ℚ) / (vals.length : ℚ)),
             average_value := sqlRound 1 (meanQ vals) }
  else none

/-- `working_api.get_position_analysis` (the `/api/analytics/position`
endpoint).  It interpolates `pgs.{stat_type}` directly (no `total_yards`
handling), upper-cases the position parameter, and applies the same
exclusion subquery. -/
def w_get_position_analysis (db : WorkingDb) (position : String) (stat_type : String)
    (line_value : ℚ) (min_games : ℕ) : Except ApiError (List WPosRow) :=
  if pgsColumnKnown stat_type then
    .ok ((db.players.filterMap
        (position_row db position.toUpper stat_type line_value min_games)
      ).insertionSort posOrder)
  else .error (.operationalError ("no such column: pgs." ++ stat_type))

/-- One pick of the `/api/picks/best` response. -/
structure BestPick where
  player_id : String
  player_name : String
  position : String
  team : String
  stat_type : String
  line_value : ℚ
  games_analyzed : ℕ
  hits : ℕ
  hit_rate : ℚ
  average_value : ℚ
  deriving DecidableEq, Inhabited

/-- The order `ORDER BY hit_rate DESC, games_analyzed DESC` on picks. -/
def bestOrder (a b : BestPick) : Prop :=
  b.hit_rate < a.hit_rate ∨ (a.hit_rate = b.hit_rate ∧ b.games_analyzed ≤ a.games_analyzed)

instance : DecidableRel bestOrder := fun a b => by
  unfold bestOrder
  exact inferInstance

/-- The hardcoded `position_stats` table of `get_best_picks`. -/
def position_stats_table : List (String × List (String × List ℚ)) :=
  [("QB", [("passing_yards", [200.5, 225.5, 250.5, 275.5, 300.5]),
           ("rushing_yards", [15.5, 20.5, 25.5, 30.5, 35.5])]),
   ("WR", [("receiving_yards", [40.5, 50.5, 60.5, 75.5, 90.5, 100.5]),
           ("receptions", [2.5, 3.5, 4.5, 5.5, 6.5, 7.5]),
           ("rushing_yards", [5.5, 10.5, 15.5, 20.5]),
           ("total_yards", [45.5, 60.5, 75.5, 90.5, 105.5, 120.5])]),
   ("RB", [("rushing_yards", [40.5, 50.5, 60.5, 75.5, 90.5, 100.5]),
           ("receiving_yards", [10.5, 20.5, 30.5, 40.5, 50.5]),
           ("receptions", [1.5, 2.5, 3.5, 4.5, 5.5]),
           ("total_yards", [50.5, 70.5, 90.5, 110.5, 130.5, 150.5])]),
   ("TE", [("receiving_yards", [25.5, 35.5, 45.5, 55.5, 65.5]),
           ("receptions", [2.5, 3.5, 4.5, 5.5, 6.5]),
           ("total_yards", [25.5, 35.5, 45.5, 55.5, 65.5])])]

/-- One inner query of `get_best_picks`, for a fixed (position, stat, line):
grouped per player, exclusions filtered, and the `HAVING` clause requiring
`COUNT(*) >= min_games`, the rounded hit rate within
`[min_hit_rate, max_hit_rate]`, and the line within `[0.75, 1.25]` times the
(unrounded) average; ordered by hit rate then games. -/
def best_picks_group (db : WorkingDb) (min_hit_rate max_hit_rate : ℚ) (min_games : ℕ)
    (position stat_type : String) (line_value : ℚ) : List BestPick :=
  ((db.players.filterMap (fun p =>
    if decide (p.position = position) && !(decide (p.player_id ∈ exclusion_ids db)) then
      let vals := wQualVals db p.player_id stat_type
      let hits := vals.countP (fun v => decide (line_value ≤ v))
      let hit_rate := sqlRound 2 (100 * (hits : ℚ) / (vals.length : ℚ))
      let avg := meanQ vals
      if 0 < vals.length ∧ min_games ≤ vals.length ∧
          min_hit_rate ≤ hit_rate ∧ hit_rate ≤ max_hit_rate ∧
          avg * 0.75 ≤ line_value ∧ line_value ≤ avg * 1.25 then
        some { player_id := p.player_id, player_name := p.full_name,
               position := p.position, team := (team_abbr db p).getD "Unknown",
               stat_type := stat_type, line_value := line_value,
               games_analyzed := vals.length, hits := hits, hit_rate := hit_rate,
               average_value := sqlRound 1 avg }
      else none
    else none)).insertionSort bestOrder)

/-- `working_api.get_best_picks` (the `/api/picks/best` endpoint): run every
inner query of the hardcoded table, append all results, re-sort globally by
hit rate only (Python stable sort), and truncate to `limit`. -/
def w_get_best_picks (db : WorkingDb) (min_hit_rate max_hit_rate : ℚ)
    (min_games limit : ℕ) : List BestPick :=
  let all_picks := position_stats_table.flatMap (fun ps =>
    ps.2.flatMap (fun st =>
      st.2.flatMap (fun lv =>
        best_picks_group db min_hit_rate max_hit_rate min_games ps.1 st.1 lv)))
  ((all_picks.insertionSort (fun a b => b.hit_rate ≤ a.hit_rate)).take limit)

/-- Spec-side count, following the claim wording for C2: the total number of
qualifying observations of the entity for the selector (non-null selected
value), with no window applied. -/
def specTotalQualifyingObservations (db : ServiceDb) (player_id : ℕ)
    (stat_type : StatType) : ℕ :=
  ((db.player_stats.filter (fun s => decide (s.player_id = player_id))).filterMap
    (fun s => extract_stat_value s stat_type)).length

/-! ### Concrete databases used by witnesses and counterexamples -/

/-- A small service database: player 1 has receiving observations 89 (game 1,
older) and 125.5 (game 2, newer); player 2 has a single observation, in the
older game only. -/
def exDb9 : ServiceDb :=
  { players := [{ id := 1, name := "P", position := "WR", team := "A" },
                { id := 2, name := "Q", position := "WR", team := "B" }],
    games := [
      { id := 1, season := 2024, week := 1, home_team := "A", away_team := "B",
        game_date := 10 },
      { id := 2, season := 2024, week := 2, home_team := "A", away_team := "B",
        game_date := 20 }],
    player_stats := [
      { player_id := 1, game_id := 1, passing_yards := none, rushing_yards := none,
        receiving_yards := some 89, receptions := none, passing_touchdowns := 0,
        rushing_touchdowns := 0, receiving_touchdowns := 0, interceptions := none,
        fumbles := none },
      { player_id := 1, game_id := 2, passing_yards := none, rushing_yards := none,
        receiving_yards := some 125.5, receptions := none, passing_touchdowns := 0,
        rushing_touchdowns := 0, receiving_touchdowns := 0, interceptions := none,
        fumbles := none },
      { player_id := 2, game_id := 1, passing_yards := none, rushing_yards := none,
        receiving_yards := some 50, receptions := none, passing_touchdowns := 0,
        rushing_touchdowns := 0, receiving_touchdowns := 0, interceptions := none,
        fumbles := none }] }

/-- A service database with two same-position players on identical hit
rates: player 1 (listed first) has 1 analyzed game, player 2 has 2. -/
def svcDbC4 : ServiceDb :=
  { players := [{ id := 1, name := "A", position := "WR", team := "T1" },
                { id := 2, name := "B", position := "WR", team := "T2" }],
    games := [
      { id := 1, season := 2024, week := 1, home_team := "T1", away_team := "T2",
        game_date := 10 },
      { id := 2, season := 2024, week := 2, home_team := "T1", away_team := "T2",
        game_date := 20 }],
    player_stats := [
      { player_id := 1, game_id := 1, passing_yards := none, rushing_yards := none,
        receiving_yards := some 50, receptions := none, passing_touchdowns := 0,
        rushing_touchdowns := 0, receiving_touchdowns := 0, interceptions := none,
        fumbles := none },
      { player_id := 2, game_id := 1, passing_yards := none, rushing_yards := none,
        receiving_yards := some 60, receptions := none, passing_touchdowns := 0,
        rushing_touchdowns := 0, receiving_touchdowns := 0, interceptions := none,
        fumbles := none },
      { player_id := 2, game_id := 2, passing_yards := none, rushing_yards := none,
        receiving_yards := some 70, receptions := none, passing_touchdowns := 0,
        rushing_touchdowns := 0, receiving_touchdowns := 0, interceptions := none,
        fumbles := none }] }

/-- A small working-api database: `p1` (WR) has receiving observations
89 and 125.5; `p2` (TE) has one observation of 10; `p3` (QB) has no stats;
`x1` (WR) has a strong observation but sits on the injured list. -/
def wDbEx : WorkingDb :=
  { players := [{ player_id := "p1", full_name := "Alice", position := "WR", team_id := none },
                { player_id := "p2", full_name := "Carol", position := "TE", team_id := none },
                { player_id := "p3", full_name := "Dave", position := "QB", team_id := none },
                { player_id := "x1", full_name := "Bob", position := "WR", team_id := none }],
    teams := [],
    player_game_stats := [
      { player_id := "p1", game_id := "g1", passing_yards := none, rushing_yards := none,
        receiving_yards := some 89, receptions := none, passing_tds := none,
        rushing_tds := none, receiving_tds := none },
      { player_id := "p1", game_id := "g2", passing_yards := none, rushing_yards := none,
        receiving_yards := some 125.5, receptions := none, passing_tds := none,
        rushing_tds := none, receiving_tds := none },
      { player_id := "p2", game_id := "g1", passing_yards := none, rushing_yards := none,
        receiving_yards := some 10, receptions := none, passing_tds := none,
        rushing_tds := none, receiving_tds := none },
      { player_id := "x1", game_id := "g1", passing_yards := none, rushing_yards := none,
        receiving_yards := some 200, receptions := none, passing_tds := none,
        rushing_tds := none, receiving_tds := none }],
    games := [{ game_id := "g1", season := 2024, week := 1, game_date := 10 },
              { game_id := "g2", season := 2025, week := 2, game_date := 20 }],
    team_changes := [none],
    injured_players := [some "x1"],
    excluded_players := [{ player_id := some "x1", active := false }] }

/-- The `/analysis` result for `p1` in `wDbEx` (the query succeeds there). -/
def exWRes : WPlayerAnalysis :=
  ((w_get_player_analysis wDbEx "p1" "receiving_yards" 100 20).toOption).getD default

/-- The trending output over `wDbEx`. -/
def exTrendOut : List TrendRow :=
  ((w_get_trending_players wDbEx "receiving_yards" 50 1 20).toOption).getD []

/-- The first trending row over `wDbEx`. -/
def exTrendRow : TrendRow := exTrendOut.getD 0 default

/-- The working-api position-analysis output over `wDbEx`. -/
def exPosOut : List WPosRow :=
  ((w_get_position_analysis wDbEx "WR" "receiving_yards" 50 1).toOption).getD []

/-- The first working-api position row over `wDbEx`. -/
def exPosRow : WPosRow := exPosOut.getD 0 default

/-- The first best pick over `wDbEx`. -/
def exPick8 : BestPick := (w_get_best_picks wDbEx 0 100 1 100).getD 0 default

/-- The multi-line analysis of player 1 in `exDb9` at lines 90 and 130. -/
def exMultiRes : MultipleLineAnalysis :=
  (get_multiple_line_analysis exDb9 1 StatType.RECEIVING_YARDS [90, 130] 20).getD default

/-- The per-line entry of `exMultiRes` for line 90. -/
def exMultiE1 : ℚ × LineAnalysis :=
  (90, get_player_line_analysis exDb9 1 StatType.RECEIVING_YARDS 90 20)

/-- The per-line entry of `exMultiRes` for line 130. -/
def exMultiE2 : ℚ × LineAnalysis :=
  (130, get_player_line_analysis exDb9 1 StatType.RECEIVING_YARDS 130 20)

/-! ### Helper lemmas -/

theorem roundHalfEven_bounds (x : ℚ) :
    x - 1/2 ≤ (roundHalfEven x : ℚ) ∧ (roundHalfEven x : ℚ) ≤ x + 1/2 := by
  have hle : ((⌊x⌋ : ℤ) : ℚ) ≤ x := Int.floor_le x
  have hlt : x < ((⌊x⌋ : ℤ) : ℚ) + 1 := Int.lt_floor_add_one x
  unfold roundHalfEven
  dsimp only
  split_ifs with h1 h2 h3 <;> constructor <;> push_cast <;> linarith

theorem roundHalfEven_mono {a b : ℚ} (h : a ≤ b) :
    roundHalfEven a ≤ roundHalfEven b := by
  by_contra hc
  push_neg at hc
  have hint : (roundHalfEven b : ℚ) + 1 ≤ (roundHalfEven a : ℚ) := by
    exact_mod_cast Int.add_one_le_of_lt hc
  obtain ⟨ha1, ha2⟩ := roundHalfEven_bounds a
  obtain ⟨hb1, hb2⟩ := roundHalfEven_bounds b
  have hba : b ≤ a := by linarith
  have heq : a = b := le_antisymm h hba
  subst heq
  exact absurd rfl (Int.ne_of_lt hc).symm

theorem pyRound2_mono {a b : ℚ} (h : a ≤ b) : pyRound2 a ≤ pyRound2 b := by
  unfold pyRound2
  have h100 : a * 100 ≤ b * 100 := by nlinarith
  have hmono := roundHalfEven_mono h100
  have hc : (roundHalfEven (a * 100) : ℚ) ≤ (roundHalfEven (b * 100) : ℚ) := by
    exact_mod_cast hmono
  linarith

theorem games_analyzed_of_line_analysis (db : ServiceDb) (pid : ℕ) (st : StatType)
    (lv : ℚ) (gb : ℕ) :
    (get_player_line_analysis db pid st lv gb).games_analyzed =
      (get_recent_player_stats db pid st gb).length := by
  unfold get_player_line_analysis
  dsimp only
  by_cases h : (get_recent_player_stats db pid st gb).isEmpty
  · rw [if_pos h]
    simp [List.isEmpty_iff.mp h]
  · rw [if_neg h]

theorem games_of_line_analysis (db : ServiceDb) (pid : ℕ) (st : StatType)
    (lv : ℚ) (gb : ℕ) :
    (get_player_line_analysis db pid st lv gb).games =
      (if (get_recent_player_stats db pid st gb).isEmpty then []
       else get_games_breakdown db pid st gb) := by
  unfold get_player_line_analysis
  dsimp only
  by_cases h : (get_recent_player_stats db pid st gb).isEmpty
  · rw [if_pos h, if_pos h]
  · rw [if_neg h, if_neg h]

/-! ### Claims -/

/-- C1 (amended): for any entity/selector/window with zero qualifying
observations, the service-level `get_player_line_analysis` returns
`games_analyzed = 0`, `hit_rate = 0.0`, `average_value = 0.0`,
`median_value = 0.0` and an empty games list, and does not signal an
error. -/
theorem claim_C1_empty_window_zero_result (db : ServiceDb) (pid : ℕ) (st : StatType)
    (lv : ℚ) (gb : ℕ) (h : get_recent_player_stats db pid st gb = []) :
    (get_player_line_analysis db pid st lv gb).games_analyzed = 0 ∧
    (get_player_line_analysis db pid st lv gb).hit_rate = 0 ∧
    (get_player_line_analysis db pid st lv gb).average_value = 0 ∧
    (get_player_line_analysis db pid st lv gb).median_value = 0 ∧
    (get_player_line_analysis db pid st lv gb).games = [] := by
  simp [get_player_line_analysis, h]

/-- C1 witness: player 99 has no observations in `exDb9`. -/
theorem claim_C1_witness :
    get_recent_player_stats exDb9 99 StatType.RECEIVING_YARDS 20 = [] ∧
    ((get_player_line_analysis exDb9 99 StatType.RECEIVING_YARDS 100 20).games_analyzed = 0 ∧
     (get_player_line_analysis exDb9 99 StatType.RECEIVING_YARDS 100 20).hit_rate = 0 ∧
     (get_player_line_analysis exDb9 99 StatType.RECEIVING_YARDS 100 20).average_value = 0 ∧
     (get_player_line_analysis exDb9 99 StatType.RECEIVING_YARDS 100 20).median_value = 0 ∧
     (get_player_line_analysis exDb9 99 StatType.RECEIVING_YARDS 100 20).games = []) :=
  ⟨by with_unfolding_all decide,
   claim_C1_empty_window_zero_result exDb9 99 StatType.RECEIVING_YARDS 100 20
     (by with_unfolding_all decide)⟩

/-- C1 counterexample: the `/api/players/{id}/analysis` endpoint of
`working_api.py` signals an HTTP 404 error for an existing entity with zero
qualifying observations, instead of returning the zero-valued result. -/
theorem claim_C1_counterexample :
    w_get_player_analysis wDbEx "p3" "receiving_yards" 100 20 =
      .error (.httpException 404 "No stats found for this player/stat combination") := by
  with_unfolding_all decide

/-- C9: for an entity whose qualifying receiving-yards window is exactly
[125.5, 89.0] (most recent first), the analysis at line 100 over 20 games
back reports 2 games analyzed, 1 hit (the comparison `value ≥ line` is
inclusive), a 50.0 hit rate, and average and median both 107.25 (rounded to
2 decimal places). -/
theorem claim_C9_concrete_scenario :
    get_recent_player_stats exDb9 1 StatType.RECEIVING_YARDS 20 = [125.5, 89] ∧
    (get_player_line_analysis exDb9 1 StatType.RECEIVING_YARDS 100 20).games_analyzed = 2 ∧
    (get_player_line_analysis exDb9 1 StatType.RECEIVING_YARDS 100 20).total_hits = 1 ∧
    (get_player_line_analysis exDb9 1 StatType.RECEIVING_YARDS 100 20).hit_rate = 50 ∧
    (get_player_line_analysis exDb9 1 StatType.RECEIVING_YARDS 100 20).average_value = 107.25 ∧
    (get_player_line_analysis exDb9 1 StatType.RECEIVING_YARDS 100 20).median_value = 107.25 ∧
    (get_player_line_analysis exDb9 1 StatType.RECEIVING_YARDS 89 20).total_hits = 2 := by
  with_unfolding_all decide

/-- C10: with an empty list of line values, `get_multiple_line_analysis`
does not return a result: the summary reads the loop variable `analysis`,
which is never bound, and the call dies with an unbound-variable error
(modelled as `none`). -/
theorem claim_C10_empty_line_values (db : ServiceDb) (pid : ℕ) (st : StatType) (gb : ℕ) :
    get_multiple_line_analysis db pid st [] gb = none := rfl

/-- C7 (amended): the router endpoints validate the selector through the
`StatType` enum and reject an unrecognized string with an HTTP 400
client-input error before running any analysis. -/
theorem claim_C7_router_rejects_unknown_selector (db : ServiceDb) (pid : ℕ) (s : String)
    (lv : ℚ) (gb : ℕ) (h : parseStatType s = none) :
    router_get_player_line_analysis db pid s lv gb =
      .error (.httpException 400 ("Invalid stat type: " ++ s)) := by
  unfold router_get_player_line_analysis
  rw [h]

/-- C7 witness: "bogus_stat" is unrecognized and is rejected with a 400. -/
theorem claim_C7_witness :
    parseStatType "bogus_stat" = none ∧
    router_get_player_line_analysis exDb9 1 "bogus_stat" 100 20 =
      .error (.httpException 400 ("Invalid stat type: " ++ "bogus_stat")) :=
  ⟨by decide,
   claim_C7_router_rejects_unknown_selector exDb9 1 "bogus_stat" 100 20 (by decide)⟩

/-- C7 counterexample: the `working_api.py` endpoints interpolate the raw
selector into SQL with no validation; an unrecognized selector surfaces as
a database `OperationalError` (an unknown column), not as an
InvalidStatSelector client-input error. -/
theorem claim_C7_counterexample :
    w_get_player_analysis wDbEx "p1" "bogus_stat" 100 20 =
      .error (.operationalError "no such column: pgs.bogus_stat") := by
  with_unfolding_all decide

/-- C2 counterexample: in the service implementation the window is the most
recent `games_back` games of the whole league, not of the entity.  Player 2
of `exDb9` has one qualifying observation, so with `games_back = 1` the
claim predicts `games_analyzed = min 1 1 = 1`, but the code analyzes 0
games (its only observation is not in the league-wide most recent game). -/
theorem claim_C2_counterexample :
    specTotalQualifyingObservations exDb9 2 StatType.RECEIVING_YARDS = 1 ∧
    (get_player_line_analysis exDb9 2 StatType.RECEIVING_YARDS 40 1).games_analyzed = 0 ∧
    (get_player_line_analysis exDb9 2 StatType.RECEIVING_YARDS 40 1).games_analyzed ≠
      min 1 (specTotalQualifyingObservations exDb9 2 StatType.RECEIVING_YARDS) := by
  with_unfolding_all decide

/-- C2 (amended): whenever the `/api/players/{id}/analysis` endpoint of
`working_api.py` returns a result, it aggregates over exactly
min(gamesBack, number of qualifying observations) rows, the qualifying
observations being the non-null ones of that entity in seasons 2024/2025,
windowed most-recent-first by game date. -/
theorem claim_C2_endpoint_window_min (db : WorkingDb) (pid st : String) (lv : ℚ)
    (gb : ℕ) (res : WPlayerAnalysis)
    (h : w_get_player_analysis db pid st lv gb = .ok res) :
    res.games_analyzed = min gb (wQualRows db pid st).length := by
  unfold w_get_player_analysis at h
  cases hfind : db.players.find? (fun p => decide (p.player_id = pid)) with
  | none => rw [hfind] at h; exact Except.noConfusion h
  | some p =>
    rw [hfind] at h
    dsimp only at h
    by_cases hk : statTypeKnown st
    · rw [if_pos hk] at h
      by_cases he : (((wQualRows db pid st).insertionSort
          (fun a b => b.2.game_date ≤ a.2.game_date)).take gb).enum.map (fun iv =>
          ({ week := iv.2.2.week, season := iv.2.2.season, game_date := iv.2.2.game_date,
             stat_value := iv.2.1, hit := decide (lv ≤ iv.2.1),
             game_number := iv.1 + 1 } : WGameEntry)) |>.isEmpty
      · rw [if_pos he] at h
        exact Except.noConfusion h
      · rw [if_neg he] at h
        injection h with h2
        subst h2
        simp [List.enum_length, List.length_take,
          (List.perm_insertionSort (fun a b => b.2.game_date ≤ a.2.game_date)
            (wQualRows db pid st)).length_eq]
    · rw [if_neg hk] at h
      exact Except.noConfusion h

/-- C2 witness: for `p1` in `wDbEx` the endpoint succeeds and analyzes
`min 20 2 = 2` games. -/
theorem claim_C2_witness :
    (w_get_player_analysis wDbEx "p1" "receiving_yards" 100 20 = .ok exWRes) ∧
    exWRes.games_analyzed = min 20 (wQualRows wDbEx "p1" "receiving_yards").length :=
  ⟨by with_unfolding_all decide,
   claim_C2_endpoint_window_min wDbEx "p1" "receiving_yards" 100 20 exWRes
     (by with_unfolding_all decide)⟩

theorem trending_row_excludes (db : WorkingDb) (st : String) (lv : ℚ) (mg : ℕ)
    {p : WPlayer} {e : TrendRow} (h : trending_row db st lv mg p = some e) :
    e.player_id = p.player_id ∧ p.player_id ∉ exclusion_ids db := by
  unfold trending_row at h
  dsimp only at h
  split_ifs at h with h1 h2
  have h3 := Option.some.inj h
  subst h3
  exact ⟨rfl, h1⟩

theorem position_row_excludes (db : WorkingDb) (pos st : String) (lv : ℚ) (mg : ℕ)
    {p : WPlayer} {e : WPosRow} (h : position_row db pos st lv mg p = some e) :
    e.player_id = p.player_id ∧ p.player_id ∉ exclusion_ids db := by
  unfold position_row at h
  dsimp only at h
  split_ifs at h with h1 h2
  have h3 := Option.some.inj h
  subst h3
  simp only [Bool.and_eq_true, Bool.not_eq_true', decide_eq_true_eq,
    decide_eq_false_iff_not] at h1
  exact ⟨rfl, h1.2⟩

theorem best_picks_group_mem (db : WorkingDb) (mhr Mhr : ℚ) (mg : ℕ)
    (pos st : String) (lv : ℚ) {pick : BestPick}
    (h : pick ∈ best_picks_group db mhr Mhr mg pos st lv) :
    pick.player_id ∉ exclusion_ids db ∧ pick.stat_type = st ∧ pick.line_value = lv ∧
    mhr ≤ pick.hit_rate ∧ pick.hit_rate ≤ Mhr ∧
    meanQ (wQualVals db pick.player_id st) * 0.75 ≤ lv ∧
    lv ≤ meanQ (wQualVals db pick.player_id st) * 1.25 := by
  unfold best_picks_group at h
  rw [List.Perm.mem_iff (List.perm_insertionSort _ _)] at h
  obtain ⟨p, hp, hrow⟩ := List.mem_filterMap.mp h
  dsimp only at hrow
  split_ifs at hrow with h1 h2
  have h3 := Option.some.inj hrow
  subst h3
  simp only [Bool.and_eq_true, Bool.not_eq_true', decide_eq_true_eq,
    decide_eq_false_iff_not] at h1
  obtain ⟨_, _, hc2, hc3, hc4, hc5⟩ := h2
  exact ⟨h1.2, rfl, rfl, hc2, hc3, hc4, hc5⟩

/-- C3: an entity in the exclusion set (team changes, injured players, or
active excluded players) never appears in the output of the trending,
position-analysis or best-picks aggregations, regardless of its hit rate. -/
theorem claim_C3_exclusion_is_hard_filter (db : WorkingDb) (st pos : String)
    (lv mhr Mhr : ℚ) (mg lim : ℕ) :
    (∀ out, w_get_trending_players db st lv mg lim = .ok out →
      ∀ e ∈ out, e.player_id ∉ exclusion_ids db) ∧
    (∀ out, w_get_position_analysis db pos st lv mg = .ok out →
      ∀ e ∈ out, e.player_id ∉ exclusion_ids db) ∧
    (∀ pick ∈ w_get_best_picks db mhr Mhr mg lim,
      pick.player_id ∉ exclusion_ids db) := by
  refine ⟨?_, ?_, ?_⟩
  · intro out hout e he
    unfold w_get_trending_players at hout
    split_ifs at hout with hk
    injection hout with hout2
    subst hout2
    have he2 := List.mem_of_mem_take he
    rw [List.Perm.mem_iff (List.perm_insertionSort _ _)] at he2
    obtain ⟨p, hp, hrow⟩ := List.mem_filterMap.mp he2
    obtain ⟨heq, hnot⟩ := trending_row_excludes db st lv mg hrow
    rw [heq]
    exact hnot
  · intro out hout e he
    unfold w_get_position_analysis at hout
    split_ifs at hout with hk
    injection hout with hout2
    subst hout2
    rw [List.Perm.mem_iff (List.perm_insertionSort _ _)] at he
    obtain ⟨p, hp, hrow⟩ := List.mem_filterMap.mp he
    obtain ⟨heq, hnot⟩ := position_row_excludes db pos.toUpper st lv mg hrow
    rw [heq]
    exact hnot
  · intro pick hpick
    unfold w_get_best_picks at hpick
    dsimp only at hpick
    have h2 := List.mem_of_mem_take hpick
    rw [List.Perm.mem_iff (List.perm_insertionSort _ _)] at h2
    obtain ⟨ps, hps, h3⟩ := List.mem_flatMap.mp h2
    obtain ⟨stl, hstl, h4⟩ := List.mem_flatMap.mp h3
    obtain ⟨lval, hlval, h5⟩ := List.mem_flatMap.mp h4
    exact (best_picks_group_mem db mhr Mhr mg ps.1 stl.1 lval h5).1

/-- C3 witness: in `wDbEx`, `x1` is excluded (injured); the trending,
position and best-picks outputs are nonempty and none of their entries is
an excluded entity. -/
theorem claim_C3_witness :
    (w_get_trending_players wDbEx "receiving_yards" 50 1 20 = .ok exTrendOut) ∧
    (exTrendRow ∈ exTrendOut) ∧
    ("x1" ∈ exclusion_ids wDbEx) ∧
    (exTrendRow.player_id ∉ exclusion_ids wDbEx) ∧
    (w_get_position_analysis wDbEx "WR" "receiving_yards" 50 1 = .ok exPosOut) ∧
    (exPosRow ∈ exPosOut) ∧
    (exPosRow.player_id ∉ exclusion_ids wDbEx) ∧
    (exPick8 ∈ w_get_best_picks wDbEx 0 100 1 100) ∧
    (exPick8.player_id ∉ exclusion_ids wDbEx) :=
  ⟨by with_unfolding_all decide, by with_unfolding_all decide,
   by with_unfolding_all decide, by
     exact (claim_C3_exclusion_is_hard_filter wDbEx "receiving_yards" "WR" 50 0 100 1 20).1
       exTrendOut (by with_unfolding_all decide) exTrendRow (by with_unfolding_all decide),
   by with_unfolding_all decide, by with_unfolding_all decide,
   by
     exact (claim_C3_exclusion_is_hard_filter wDbEx "receiving_yards" "WR" 50 0 100 1 20).2.1
       exPosOut (by with_unfolding_all decide) exPosRow (by with_unfolding_all decide),
   by with_unfolding_all decide,
   by
     exact (claim_C3_exclusion_is_hard_filter wDbEx "receiving_yards" "WR" 50 0 100 1 100).2.2
       exPick8 (by with_unfolding_all decide)⟩

/-- C4 (amended): the SQL group aggregations of `working_api.py` (trending
shown here) return rows ordered by hit rate descending with ties ordered by
games analyzed descending (`ORDER BY hit_rate DESC, games_analyzed DESC`). -/
theorem claim_C4_trending_sorted (db : WorkingDb) (st : String) (lv : ℚ)
    (mg lim : ℕ) (out : List TrendRow)
    (h : w_get_trending_players db st lv mg lim = .ok out) :
    out.Pairwise (fun a b =>
      b.hit_rate < a.hit_rate ∨
      (a.hit_rate = b.hit_rate ∧ b.games_analyzed ≤ a.games_analyzed)) := by
  unfold w_get_trending_players at h
  split_ifs at h with hk
  injection h with h2
  subst h2
  have hs : List.Sorted trendOrder
      ((db.players.filterMap (trending_row db st lv mg)).insertionSort trendOrder) :=
    List.sorted_insertionSort trendOrder _
  exact List.Pairwise.sublist (List.take_sublist lim _) hs

/-- C4 witness: the trending output over `wDbEx` has two rows with distinct
hit rates, returned in sorted order. -/
theorem claim_C4_witness :
    (w_get_trending_players wDbEx "receiving_yards" 50 1 20 = .ok exTrendOut) ∧
    exTrendOut.Pairwise (fun a b =>
      b.hit_rate < a.hit_rate ∨
      (a.hit_rate = b.hit_rate ∧ b.games_analyzed ≤ a.games_analyzed)) :=
  ⟨by with_unfolding_all decide,
   claim_C4_trending_sorted wDbEx "receiving_yards" 50 1 20 exTrendOut
     (by with_unfolding_all decide)⟩

/-- C4 counterexample: the service-level `get_position_analysis` sorts by
hit rate only with a stable sort; in `svcDbC4` both players have hit rate
100 but the first returned row has strictly fewer analyzed games than the
second, so equal-hit-rate entities are not ordered by `games_analyzed`
descending. -/
theorem claim_C4_counterexample :
    ((get_position_analysis svcDbC4 "WR" StatType.RECEIVING_YARDS 10 20).players.map
      (fun r => (r.player_id, r.hit_rate, r.games_analyzed)) =
        [(1, 100, 1), (2, 100, 2)]) ∧
    ((get_position_analysis svcDbC4 "WR" StatType.RECEIVING_YARDS 10 20).players.getD
        0 default).hit_rate =
      ((get_position_analysis svcDbC4 "WR" StatType.RECEIVING_YARDS 10 20).players.getD
        1 default).hit_rate ∧
    ((get_position_analysis svcDbC4 "WR" StatType.RECEIVING_YARDS 10 20).players.getD
        0 default).games_analyzed <
      ((get_position_analysis svcDbC4 "WR" StatType.RECEIVING_YARDS 10 20).players.getD
        1 default).games_analyzed := by
  with_unfolding_all decide

/-- C8: every pick returned by `get_best_picks` has its (rounded) hit rate
within `[min_hit_rate, max_hit_rate]` and its line value within the ±25%
band around the average of the qualifying observations of that player for
that stat. -/
theorem claim_C8_realistic_picks_filter (db : WorkingDb) (mhr Mhr : ℚ)
    (mg lim : ℕ) (pick : BestPick)
    (h : pick ∈ w_get_best_picks db mhr Mhr mg lim) :
    mhr ≤ pick.hit_rate ∧ pick.hit_rate ≤ Mhr ∧
    meanQ (wQualVals db pick.player_id pick.stat_type) * 0.75 ≤ pick.line_value ∧
    pick.line_value ≤ meanQ (wQualVals db pick.player_id pick.stat_type) * 1.25 := by
  unfold w_get_best_picks at h
  dsimp only at h
  have h2 := List.mem_of_mem_take h
  rw [List.Perm.mem_iff (List.perm_insertionSort _ _)] at h2
  obtain ⟨ps, hps, h3⟩ := List.mem_flatMap.mp h2
  obtain ⟨stl, hstl, h4⟩ := List.mem_flatMap.mp h3
  obtain ⟨lval, hlval, h5⟩ := List.mem_flatMap.mp h4
  obtain ⟨hnot, hst, hlveq, hc2, hc3, hc4, hc5⟩ :=
    best_picks_group_mem db mhr Mhr mg ps.1 stl.1 lval h5
  rw [hst, hlveq]
  exact ⟨hc2, hc3, hc4, hc5⟩

/-- C8 witness: the first pick over `wDbEx` (receiving yards, line 90.5 for
`p1`, average 107.25) satisfies both the hit-rate range and the proximity
band. -/
theorem claim_C8_witness :
    (exPick8 ∈ w_get_best_picks wDbEx 0 100 1 100) ∧
    ((0:ℚ) ≤ exPick8.hit_rate ∧ exPick8.hit_rate ≤ 100 ∧
     meanQ (wQualVals wDbEx exPick8.player_id exPick8.stat_type) * 0.75 ≤
       exPick8.line_value ∧
     exPick8.line_value ≤
       meanQ (wQualVals wDbEx exPick8.player_id exPick8.stat_type) * 1.25) :=
  ⟨by with_unfolding_all decide,
   claim_C8_realistic_picks_filter wDbEx 0 100 1 100 exPick8
     (by with_unfolding_all decide)⟩

/-- C5: whenever `get_multiple_line_analysis` returns a result, every
per-line analysis in it reports the same `games_analyzed` count and the
same underlying game set — each line value is evaluated against the
identical observation window. -/
theorem claim_C5_window_consistency (db : ServiceDb) (pid : ℕ) (st : StatType)
    (lvs : List ℚ) (gb : ℕ) (res : MultipleLineAnalysis)
    (h : get_multiple_line_analysis db pid st lvs gb = some res) :
    ∀ e1 ∈ res.line_analyses, ∀ e2 ∈ res.line_analyses,
      e1.2.games_analyzed = e2.2.games_analyzed ∧ e1.2.games = e2.2.games := by
  cases lvs with
  | nil => exact Option.noConfusion h
  | cons hd tl =>
    unfold get_multiple_line_analysis at h
    have h2 := Option.some.inj h
    subst h2
    intro e1 h1 e2 h2m
    simp only [List.mem_map] at h1 h2m
    obtain ⟨l1, _, rfl⟩ := h1
    obtain ⟨l2, _, rfl⟩ := h2m
    constructor
    · rw [games_analyzed_of_line_analysis, games_analyzed_of_line_analysis]
    · rw [games_of_line_analysis, games_of_line_analysis]

/-- C5 witness: the analyses of lines 90 and 130 for player 1 in `exDb9`
share the window (2 games) and the same games breakdown. -/
theorem claim_C5_witness :
    (get_multiple_line_analysis exDb9 1 StatType.RECEIVING_YARDS [90, 130] 20 =
      some exMultiRes) ∧
    exMultiE1 ∈ exMultiRes.line_analyses ∧
    exMultiE2 ∈ exMultiRes.line_analyses ∧
    (exMultiE1.2.games_analyzed = exMultiE2.2.games_analyzed ∧
     exMultiE1.2.games = exMultiE2.2.games) :=
  ⟨by with_unfolding_all decide, by with_unfolding_all decide,
   by with_unfolding_all decide,
   claim_C5_window_consistency exDb9 1 StatType.RECEIVING_YARDS [90, 130] 20 exMultiRes
     (by with_unfolding_all decide) exMultiE1 (by with_unfolding_all decide)
     exMultiE2 (by with_unfolding_all decide)⟩

/-- C6: for a fixed entity, selector and window, the hit rate reported by
`get_player_line_analysis` is non-increasing in the line value. -/
theorem claim_C6_hit_rate_antitone (db : ServiceDb) (pid : ℕ) (st : StatType)
    (gb : ℕ) (a b : ℚ) (hab : a ≤ b) :
    (get_player_line_analysis db pid st b gb).hit_rate ≤
      (get_player_line_analysis db pid st a gb).hit_rate := by
  unfold get_player_line_analysis
  dsimp only
  by_cases h : (get_recent_player_stats db pid st gb).isEmpty
  · rw [if_pos h, if_pos h]
  · rw [if_neg h, if_neg h]
    apply pyRound2_mono
    have hcount : ((get_recent_player_stats db pid st gb).countP
        (fun v => decide (b ≤ v))) ≤
        ((get_recent_player_stats db pid st gb).countP (fun v => decide (a ≤ v))) := by
      apply List.countP_mono_left
      intro x _ hx
      simp only [decide_eq_true_eq] at *
      linarith
    have hq : (((get_recent_player_stats db pid st gb).countP
        (fun v => decide (b ≤ v)) : ℚ)) ≤
        (((get_recent_player_stats db pid st gb).countP (fun v => decide (a ≤ v)) : ℚ)) := by
      exact_mod_cast hcount
    exact mul_le_mul_of_nonneg_right
      (div_le_div_of_nonneg_right hq (by positivity)) (by norm_num)

/-- C6 witness: in `exDb9`, raising the line from 80 to 100 drops the hit
rate from 100 to 50. -/
theorem claim_C6_witness :
    ((80:ℚ) ≤ 100) ∧
    ((get_player_line_analysis exDb9 1 StatType.RECEIVING_YARDS 100 20).hit_rate ≤
      (get_player_line_analysis exDb9 1 StatType.RECEIVING_YARDS 80 20).hit_rate) :=
  ⟨by norm_num,
   claim_C6_hit_rate_antitone exDb9 1 StatType.RECEIVING_YARDS 20 80 100 (by norm_num)⟩

end PagePicks
